import Mathlib

/-!
Verification of the result-marshaling / batch-packing layer of
`src/simulator/simulator_bindings.cpp`.

The file shallowly embeds the binding functions of that translation unit:

* `buildUserInputObject`    (points/rectangle/ball parsing),
* `addUserInputToScene`     (occlusion-merge wrapper),
* `getNumObjectsInScene` / `getNumObjects` (object counting),
* `renderAllObjectMasksTo`  (per-object mask rendering),
* `magic_ponies` and the module-level entry points built on them.

External collaborators (the thrift codec, the Box2D simulator, the
rasterizer and the geometric merge algorithm) are parameters of the
embedded functions; the thrift data types are embedded with exactly the
fields the bindings read or write, all remaining per-body geometric
fields being collapsed into one opaque `bodyData` payload.  Machine
floats are never computed with by the bindings (they are only copied),
so float-valued sequences are embedded over an arbitrary element type
`α`.  Out-of-bounds vector reads (undefined behaviour in the C++) are
made observable by modelling element access with `List.get?`, so that a
loop touching an index past the end evaluates to `none`.
-/

namespace Phyre

/-- Shape tag of a thrift `::scene::Body`; `UNDEFINED` marks an inactive
slot, which the bindings exclude from all counts and mask rendering. -/
inductive ShapeType
  | UNDEFINED
  | BALL
  | BAR
  | JAR
  | STANDINGSTICKS
deriving DecidableEq

/-- One body of a scene.  The bindings only inspect `shapeType`; every
other geometric/physical field is copied verbatim, so they are collapsed
into the opaque payload `bodyData`. -/
structure Body where
  shapeType : ShapeType
  bodyData : Nat
deriving DecidableEq

/-- Occlusion status recorded on a scene by `addUserInputToScene`. -/
inductive UserInputStatus
  | UNDEFINED
  | NO_OCCLUSIONS
  | HAD_OCCLUSIONS
deriving DecidableEq

/-- A scene, with the fields the bindings use: dimensions, the two body
lists and the user-input occlusion status. -/
structure Scene where
  width : Nat
  height : Nat
  bodies : List Body
  user_input_bodies : List Body
  user_input_status : UserInputStatus
deriving DecidableEq

/-- A task: the bindings only touch its `scene` field. -/
structure Task where
  scene : Scene
deriving DecidableEq

/-- Simulation output: the solved flag and the per-frame scene list. -/
structure TaskSimulation where
  isSolution : Bool
  sceneList : List Scene

/-- Result of `getVector(x, y)`: a 2d vector with the two coordinates in
the order they were passed. -/
structure Vector2 (α : Type) where
  x : α
  y : α
deriving DecidableEq

/-- A `::scene::AbsoluteConvexPolygon`: just its vertex list. -/
structure AbsoluteConvexPolygon (α : Type) where
  vertices : List (Vector2 α)
deriving DecidableEq

/-- A `::scene::CircleWithPosition`: position and radius. -/
structure CircleWithPosition (α : Type) where
  position : Vector2 α
  radius : α
deriving DecidableEq

/-- A `::scene::UserInput` as filled by `buildUserInputObject`. -/
structure UserInput (α : Type) where
  flattened_point_list : List Int
  polygons : List (AbsoluteConvexPolygon α)
  balls : List (CircleWithPosition α)
deriving DecidableEq

/-- The failure modes of the embedded bindings: the two shape-validation
throws of `buildUserInputObject`, an out-of-bounds vector read
(undefined behaviour in the C++, surfaced as an error by the
embedding), and a thrift decode failure of the external `deserialize`. -/
inductive BindingError
  | dimError
  | widthError
  | oobRead
  | decodeError
deriving DecidableEq

/-- The numpy `points` argument: its shape vector together with the
2d element accessor `pointsUnchecked(i, j)` used by the source. -/
structure PyIntArray where
  shape : List Nat
  at2 : Nat → Nat → Int

/-- Rectangle-parsing loop of `buildUserInputObject`, lines 88-96:
`for (int i = 0; i < rectangulars_vertices_flatten.size(); i += 8)` with
inner loop `for (int j = 0; j < 4; j += 2)` pushing
`getVector(v[i+j], v[i+j+1])`.  Note the inner bound `4`: only the
floats at offsets `i .. i+3` of each 8-float stride are read, producing
a two-vertex polygon per stride.  An access past the end of the vector
yields `none`. -/
def buildPolygonsFrom (v : List α) (i : Nat) :
    Option (List (AbsoluteConvexPolygon α)) :=
  if h : i < v.length then
    match v.get? i, v.get? (i + 1), v.get? (i + 2), v.get? (i + 3) with
    | some x0, some y0, some x1, some y1 =>
      match buildPolygonsFrom v (i + 8) with
      | some rest => some ({ vertices := [⟨x0, y0⟩, ⟨x1, y1⟩] } :: rest)
      | none => none
    | _, _, _, _ => none
  else
    some []
termination_by v.length - i
decreasing_by omega

/-- Rectangle-parsing loop started at index 0. -/
def buildPolygons (v : List α) : Option (List (AbsoluteConvexPolygon α)) :=
  buildPolygonsFrom v 0

/-- Ball-parsing loop of `buildUserInputObject`, lines 97-103:
`for (int i = 0; i < balls_flatten.size();)` reading `x`, `y`, `radius`
at `i`, `i+1`, `i+2` and advancing `i` by 3.  An access past the end of
the vector yields `none`. -/
def buildBallsFrom (v : List α) (i : Nat) :
    Option (List (CircleWithPosition α)) :=
  if h : i < v.length then
    match v.get? i, v.get? (i + 1), v.get? (i + 2) with
    | some x, some y, some r =>
      match buildBallsFrom v (i + 3) with
      | some rest => some ({ position := ⟨x, y⟩, radius := r } :: rest)
      | none => none
    | _, _, _ => none
  else
    some []
termination_by v.length - i
decreasing_by omega

/-- Ball-parsing loop started at index 0. -/
def buildBalls (v : List α) : Option (List (CircleWithPosition α)) :=
  buildBallsFrom v 0

/-- Point-flattening loop of `buildUserInputObject`, lines 81-86: for
each row `i < m`, push `points(i, 0)` then `points(i, 1)`. -/
def flattenPointsUpTo (points : PyIntArray) : Nat → List Int
  | 0 => []
  | m + 1 => flattenPointsUpTo points m ++ [points.at2 m 0, points.at2 m 1]

/-- The flattened point list built from `points.shape(0)` rows. -/
def flattenPoints (points : PyIntArray) : List Int :=
  flattenPointsUpTo points (points.shape.getD 0 0)

/-- Embedding of `buildUserInputObject` (lines 70-106): validate the
shape of `points` (rank 2, second dimension 2), then flatten the points
and run the rectangle and ball parsing loops. -/
def buildUserInputObject (points : PyIntArray) (rect balls : List α) :
    Except BindingError (UserInput α) :=
  if points.shape.length ≠ 2 then
    Except.error BindingError.dimError
  else if points.shape.getD 1 0 ≠ 2 then
    Except.error BindingError.widthError
  else
    match buildPolygons rect, buildBalls balls with
    | some polys, some circles =>
      Except.ok { flattened_point_list := flattenPoints points
                  polygons := polys
                  balls := circles }
    | _, _ => Except.error BindingError.oobRead

/-- Type of the external `mergeUserInputIntoScene` collaborator:
`(user_input, scene->bodies, keep_space_around_bodies, allow_occlusions,
height, width) ↦ (cleanFlag, user_input_bodies)`. -/
def MergeFn (α : Type) : Type :=
  UserInput α → List Body → Bool → Bool → Nat → Nat → Bool × List Body

/-- Embedding of `addUserInputToScene` (lines 108-118): run the external
merge, set the occlusion status from its flag, and overwrite the scene's
`user_input_bodies` with its returned bodies. -/
def addUserInputToScene (merge : MergeFn α) (user_input : UserInput α)
    (keep_space_around_bodies allow_occlusions : Bool) (scene : Scene) :
    Scene :=
  let res := merge user_input scene.bodies keep_space_around_bodies
    allow_occlusions scene.height scene.width
  { scene with
    user_input_status :=
      if res.1 then UserInputStatus.NO_OCCLUSIONS
      else UserInputStatus.HAD_OCCLUSIONS
    user_input_bodies := res.2 }

/-- Embedding of `getNumObjectsInScene` (lines 120-131): append
`user_input_bodies` to `bodies` and count the entries whose shape is not
`UNDEFINED`. -/
def getNumObjectsInScene (scene : Scene) : Nat :=
  (scene.bodies ++ scene.user_input_bodies).foldl
    (fun n body =>
      if body.shapeType ≠ ShapeType.UNDEFINED then n + 1 else n) 0

/-- Embedding of `getNumObjects` (lines 133-139): 0 on an empty frame
list, otherwise the object count of frame 0. -/
def getNumObjects (simulation : TaskSimulation) : Nat :=
  match simulation.sceneList with
  | [] => 0
  | scene :: _ => getNumObjectsInScene scene

/-- Embedding of `hadSimulationOcclusions` (lines 141-146). -/
def hadSimulationOcclusions (simulation : TaskSimulation) : Bool :=
  match simulation.sceneList with
  | [] => false
  | scene :: _ =>
    scene.user_input_status = UserInputStatus.HAD_OCCLUSIONS

/-- Output of the external rasterizer `render(scene)`. -/
structure Image where
  values : List Nat

/-- Byte buffers are embedded as lists; `writeBytes buf off data`
overwrites `buf` starting at offset `off` with `data`, as the pointer
writes `std::copy` / `std::fill` do. -/
def writeBytes (buf : List Nat) (off : Nat) (data : List Nat) : List Nat :=
  buf.take off ++ data ++ buf.drop (off + data.length)

/-- The `imageSize` local of `renderAllObjectMasksTo` / `magic_ponies`:
`scene.width * scene.height`. -/
def imageSizeOf (scene : Scene) : Nat :=
  scene.width * scene.height

/-- The temporary single-object scene built by the `renderSingleBody`
lambda (lines 155-159): same width and height as the outer scene, the
one body as its only member, every other field default-constructed. -/
def singleObjectScene (scene : Scene) (body : Body) : Scene :=
  { width := scene.width
    height := scene.height
    bodies := [body]
    user_input_bodies := []
    user_input_status := UserInputStatus.UNDEFINED }

/-- Body of the `renderSingleBody` lambda (lines 154-175): rasterize the
singleton scene; if the result has exactly `imageSize` values they are
the bytes written, otherwise a warning is emitted (second component
`true`) and `imageSize` zero bytes are written instead. -/
def renderSingleBody (render : Scene → Image) (scene : Scene)
    (body : Body) : List Nat × Bool :=
  let img := render (singleObjectScene scene body)
  if img.values.length = imageSizeOf scene then (img.values, false)
  else (List.replicate (imageSizeOf scene) 0, true)

/-- The two body loops of `renderAllObjectMasksTo` (lines 177-188),
fused over `bodies ++ user_input_bodies` (the C++ runs the identical
loop body over `scene.bodies` and then over `scene.user_input_bodies`
with the shared running index `currentObjectIndex`).  `base` is the
offset of `bufferStart` inside the enclosing packed buffer; a valid body
with running index `idx` is written at `base + idx * imageSize`.  The
second accumulator component counts emitted warnings. -/
def renderMasksLoop (render : Scene → Image) (scene : Scene) (base : Nat) :
    List Body → Nat → List Nat × Nat → List Nat × Nat
  | [], _, acc => acc
  | body :: rest, idx, (buf, warns) =>
    if body.shapeType ≠ ShapeType.UNDEFINED then
      renderMasksLoop render scene base rest (idx + 1)
        (writeBytes buf (base + idx * imageSizeOf scene)
            (renderSingleBody render scene body).1,
          warns + (if (renderSingleBody render scene body).2 then 1 else 0))
    else
      renderMasksLoop render scene base rest idx (buf, warns)

/-- Embedding of `renderAllObjectMasksTo` (lines 149-189), returning the
updated buffer and the number of size-mismatch warnings emitted. -/
def renderAllObjectMasksTo (render : Scene → Image) (scene : Scene)
    (buf : List Nat) (base : Nat) : List Nat × Nat :=
  renderMasksLoop render scene base
    (scene.bodies ++ scene.user_input_bodies) 0 (buf, 0)

/-- The bodies `renderAllObjectMasksTo` actually renders, in visiting
order: the non-`UNDEFINED` entries of `bodies ++ user_input_bodies`. -/
def validBodies (scene : Scene) : List Body :=
  (scene.bodies ++ scene.user_input_bodies).filter
    (fun body => body.shapeType ≠ ShapeType.UNDEFINED)

/-- Result tuple of `magic_ponies` (lines 273-276), with the buffer
allocations made observable: `packedImagesLen` is the length of the
returned packed-images array (equal to its allocation,
`imageSize * numImagesTotal`), `masksAllocLen` the allocation of
`packedObjectMasks`, `masksArrayLen` the length of the returned masks
array, `masksBuf` the mask buffer contents, and `maskRenderedFrames`
the frames for which `renderAllObjectMasksTo` was invoked. -/
structure PoniesResult where
  isSolved : Bool
  hadOcclusions : Bool
  packedImagesLen : Nat
  masksAllocLen : Nat
  masksBuf : List Nat
  masksArrayLen : Nat
  maskRenderedFrames : List Scene
  numSceneObjects : Nat
  featuresArrayLen : Nat

/-- The frame loop of `magic_ponies` (lines 216-231), restricted to its
mask-relevant effects: per frame, the image slice is written by the
external `renderTo` (not further modelled), and if `need_object_masks`
is set the frame's masks are rendered at base offset
`sceneIndex * numSceneObjects * imageSize` and the frame is recorded. -/
def masksLoop (render : Scene → Image)
    (numSceneObjects imageSize : Nat) (need_object_masks : Bool) :
    List Scene → Nat → List Nat × List Scene → List Nat × List Scene
  | [], _, acc => acc
  | scene :: rest, sceneIndex, (buf, frames) =>
    let step :=
      if need_object_masks then
        ((renderAllObjectMasksTo render scene buf
            (sceneIndex * numSceneObjects * imageSize)).1,
          frames ++ [scene])
      else (buf, frames)
    masksLoop render numSceneObjects imageSize need_object_masks rest
      (sceneIndex + 1) step

/-- Embedding of the static `magic_ponies` (lines 192-277).  The
external collaborators are parameters: `decodeTask` is the outcome of
`deserialize<Task>(serialized_task)`, `simulateTaskFn` the Box2D
simulator, `merge` the geometric merge, `render` the rasterizer, and
`kObjectFeatureSize` the feature-width constant.  The contents of
`packedImages` and `packedVectorizedBodies` are written by the external
`renderTo` / `featurizeScene` and are tracked by length only. -/
def magic_ponies (decodeTask : Except BindingError Task)
    (simulateTaskFn : Task → Int → Int → TaskSimulation)
    (merge : MergeFn α) (render : Scene → Image)
    (kObjectFeatureSize : Nat) (user_input : UserInput α)
    (keep_space_around_bodies : Bool) (steps stride : Int)
    (need_images need_featurized_objects need_object_masks : Bool) :
    Except BindingError PoniesResult := do
  let task ← decodeTask
  let scene := addUserInputToScene merge user_input
    keep_space_around_bodies false task.scene
  let simulation := simulateTaskFn { task with scene := scene } steps stride
  let numImagesTotal :=
    if need_images then simulation.sceneList.length else 0
  let numScenesTotal :=
    if need_featurized_objects then simulation.sceneList.length else 0
  let imageSize := scene.width * scene.height
  let numSceneObjects := getNumObjects simulation
  let masksAlloc :=
    List.replicate (imageSize * numImagesTotal * numSceneObjects) 0
  let packed :=
    if 0 < numImagesTotal then
      masksLoop render numSceneObjects imageSize need_object_masks
        simulation.sceneList 0 (masksAlloc, [])
    else (masksAlloc, [])
  pure
    { isSolved := simulation.isSolution
      hadOcclusions := hadSimulationOcclusions simulation
      packedImagesLen := numImagesTotal * imageSize
      masksAllocLen := imageSize * numImagesTotal * numSceneObjects
      masksBuf := packed.1
      masksArrayLen :=
        if need_object_masks then
          numImagesTotal * numSceneObjects * imageSize
        else 0
      maskRenderedFrames := packed.2
      numSceneObjects := numSceneObjects
      featuresArrayLen := numScenesTotal * numSceneObjects * kObjectFeatureSize }

/-- Embedding of the `check_for_occlusions` module entry point
(lines 315-328): build the user input from the raw arrays, then decode
the task, merge, and report whether occlusions were recorded. -/
def check_for_occlusions (decodeTask : Except BindingError Task)
    (merge : MergeFn α) (points : PyIntArray) (rect balls : List α)
    (keep_space_around_bodies : Bool) : Except BindingError Bool := do
  let user_input ← buildUserInputObject points rect balls
  let task ← decodeTask
  let scene := addUserInputToScene merge user_input
    keep_space_around_bodies false task.scene
  pure (scene.user_input_status = UserInputStatus.HAD_OCCLUSIONS)

/-- Embedding of the `magic_ponies` module entry point (lines 352-365):
build the user input from the raw arrays, then run `magic_ponies`. -/
def magic_ponies_binding (decodeTask : Except BindingError Task)
    (simulateTaskFn : Task → Int → Int → TaskSimulation)
    (merge : MergeFn α) (render : Scene → Image)
    (kObjectFeatureSize : Nat) (points : PyIntArray)
    (rect balls : List α) (keep_space_around_bodies : Bool)
    (steps stride : Int)
    (need_images need_featurized_objects need_object_masks : Bool) :
    Except BindingError PoniesResult := do
  let user_input ← buildUserInputObject points rect balls
  magic_ponies decodeTask simulateTaskFn merge render kObjectFeatureSize
    user_input keep_space_around_bodies steps stride need_images
    need_featurized_objects need_object_masks

/-! ## Counting lemmas -/

/-- The counting fold of `getNumObjectsInScene` counts exactly the
non-`UNDEFINED` entries. -/
theorem foldl_count_eq_countP (l : List Body) (n : Nat) :
    l.foldl
        (fun n body =>
          if body.shapeType ≠ ShapeType.UNDEFINED then n + 1 else n) n
      = n + l.countP (fun body => body.shapeType ≠ ShapeType.UNDEFINED) := by
  induction l generalizing n with
  | nil => simp
  | cons b t ih =>
    rw [List.foldl_cons, ih, List.countP_cons]
    by_cases hb : b.shapeType = ShapeType.UNDEFINED <;> simp [hb] <;> omega

/-- C4: `countObjects(scene)` is the number of non-`UNDEFINED` bodies
summed over `bodies` and `user_input_bodies`; `countObjects(simulation)`
is 0 on an empty frame list and `countObjects(frame 0)` otherwise. -/
theorem countObjects_spec (scene : Scene) (isSol : Bool)
    (rest : List Scene) :
    getNumObjectsInScene scene
        = scene.bodies.countP
            (fun body => body.shapeType ≠ ShapeType.UNDEFINED)
          + scene.user_input_bodies.countP
              (fun body => body.shapeType ≠ ShapeType.UNDEFINED)
      ∧ getNumObjects ⟨isSol, []⟩ = 0
      ∧ getNumObjects ⟨isSol, scene :: rest⟩ = getNumObjectsInScene scene := by
  refine ⟨?_, rfl, rfl⟩
  unfold getNumObjectsInScene
  rw [foldl_count_eq_countP, List.countP_append]
  omega

/-! ## Merge wrapper -/

/-- C6: `mergeInto` sets the scene's status to `NO_OCCLUSIONS` iff the
merge reports clean (else `HAD_OCCLUSIONS`), and unconditionally
replaces `user_input_bodies` with the merge's returned bodies. -/
theorem mergeInto_spec {α : Type} (merge : MergeFn α)
    (user_input : UserInput α) (keep allow : Bool) (scene : Scene) :
    ((addUserInputToScene merge user_input keep allow scene).user_input_status
          = UserInputStatus.NO_OCCLUSIONS
        ↔ (merge user_input scene.bodies keep allow
            scene.height scene.width).1 = true)
      ∧ ((addUserInputToScene merge user_input keep allow
            scene).user_input_status = UserInputStatus.HAD_OCCLUSIONS
        ↔ (merge user_input scene.bodies keep allow
            scene.height scene.width).1 = false)
      ∧ (addUserInputToScene merge user_input keep allow
            scene).user_input_bodies
        = (merge user_input scene.bodies keep allow
            scene.height scene.width).2 := by
  unfold addUserInputToScene
  cases h : (merge user_input scene.bodies keep allow
      scene.height scene.width).1 <;> simp [h]

/-! ## Batch packer buffer sizes -/

/-- C3: with `need_images = true`, the returned images buffer has
`F * S` bytes; the object-mask buffer is allocated with `F * O * S`
bytes independently of `need_object_masks`; and with
`need_object_masks = true` the returned masks array has length
`F * O * S`. -/
theorem magic_ponies_buffer_sizes {α : Type} (merge : MergeFn α)
    (render : Scene → Image)
    (simulateTaskFn : Task → Int → Int → TaskSimulation) (task : Task)
    (kObjectFeatureSize : Nat) (user_input : UserInput α) (keep : Bool)
    (steps stride : Int) (need_featurized_objects need_object_masks : Bool) :
    let scene := addUserInputToScene merge user_input keep false task.scene
    let simulation := simulateTaskFn { task with scene := scene } steps stride
    let F := simulation.sceneList.length
    let O := getNumObjects simulation
    let S := imageSizeOf scene
    ∃ r, magic_ponies (Except.ok task) simulateTaskFn merge render
          kObjectFeatureSize user_input keep steps stride true
          need_featurized_objects need_object_masks = Except.ok r
      ∧ r.packedImagesLen = F * S
      ∧ r.masksAllocLen = F * O * S
      ∧ r.masksArrayLen = (if need_object_masks then F * O * S else 0) := by
  intro scene simulation F O S
  refine ⟨_, rfl, ?_, ?_, ?_⟩ <;>
    simp only [magic_ponies, imageSizeOf, if_true, pure, Except.pure,
      bind, Except.bind, scene, simulation, F, O, S] <;>
    try ring

/-- C10: with `need_images = false` the returned object-mask array has
length 0, the mask buffer allocation is empty, and no frame's masks are
ever rendered, whatever `need_object_masks` is. -/
theorem magic_ponies_no_images_no_masks {α : Type} (merge : MergeFn α)
    (render : Scene → Image)
    (simulateTaskFn : Task → Int → Int → TaskSimulation) (task : Task)
    (kObjectFeatureSize : Nat) (user_input : UserInput α) (keep : Bool)
    (steps stride : Int) (need_featurized_objects need_object_masks : Bool) :
    ∃ r, magic_ponies (Except.ok task) simulateTaskFn merge render
          kObjectFeatureSize user_input keep steps stride false
          need_featurized_objects need_object_masks = Except.ok r
      ∧ r.masksArrayLen = 0
      ∧ r.masksAllocLen = 0
      ∧ r.masksBuf = []
      ∧ r.maskRenderedFrames = [] := by
  refine ⟨_, rfl, ?_, ?_, ?_, ?_⟩ <;>
    simp only [magic_ponies, pure, Except.pure, bind, Except.bind] <;>
    cases need_object_masks <;> simp

/-! ## Stride-parsing lemmas -/

theorem buildPolygonsFrom_cons_aux (k : Nat) :
    ∀ (x : α) (v : List α) (i : Nat), v.length - i ≤ k →
      buildPolygonsFrom (x :: v) (i + 1) = buildPolygonsFrom v i := by
  induction k with
  | zero =>
    intro x v i h
    have hv : ¬ i < v.length := by omega
    have hv1 : ¬ i + 1 < (x :: v).length := by simp; omega
    conv_lhs => rw [buildPolygonsFrom.eq_def]
    conv_rhs => rw [buildPolygonsFrom.eq_def]
    rw [dif_neg hv1, dif_neg hv]
  | succ k ih =>
    intro x v i h
    by_cases hi : i < v.length
    · have hi1 : i + 1 < (x :: v).length := by simp; omega
      conv_lhs => rw [buildPolygonsFrom.eq_def]
      conv_rhs => rw [buildPolygonsFrom.eq_def]
      rw [dif_pos hi1, dif_pos hi]
      have g0 : (x :: v).get? (i + 1) = v.get? i := List.get?_cons_succ
      have g1 : (x :: v).get? (i + 1 + 1) = v.get? (i + 1) := List.get?_cons_succ
      have g2 : (x :: v).get? (i + 1 + 2) = v.get? (i + 2) := by
        rw [show i + 1 + 2 = (i + 2) + 1 from by omega, List.get?_cons_succ]
      have g3 : (x :: v).get? (i + 1 + 3) = v.get? (i + 3) := by
        rw [show i + 1 + 3 = (i + 3) + 1 from by omega, List.get?_cons_succ]
      have grec : buildPolygonsFrom (x :: v) (i + 1 + 8) = buildPolygonsFrom v (i + 8) := by
        rw [show i + 1 + 8 = (i + 8) + 1 from by omega]
        exact ih x v (i + 8) (by omega)
      rw [g0, g1, g2, g3, grec]
    · have hv1 : ¬ i + 1 < (x :: v).length := by simp; omega
      conv_lhs => rw [buildPolygonsFrom.eq_def]
      conv_rhs => rw [buildPolygonsFrom.eq_def]
      rw [dif_neg hv1, dif_neg hi]

theorem buildPolygonsFrom_cons (x : α) (v : List α) (i : Nat) :
    buildPolygonsFrom (x :: v) (i + 1) = buildPolygonsFrom v i :=
  buildPolygonsFrom_cons_aux (v.length) x v i (by omega)


theorem buildPolygonsFrom_shift8 (a b c d e f g h8 : α) (t : List α) (i : Nat) :
    buildPolygonsFrom (a :: b :: c :: d :: e :: f :: g :: h8 :: t) (i + 8)
      = buildPolygonsFrom t i := by
  rw [show i + 8 = i + 7 + 1 from by omega, buildPolygonsFrom_cons]
  rw [show i + 7 = i + 6 + 1 from by omega, buildPolygonsFrom_cons]
  rw [show i + 6 = i + 5 + 1 from by omega, buildPolygonsFrom_cons]
  rw [show i + 5 = i + 4 + 1 from by omega, buildPolygonsFrom_cons]
  rw [show i + 4 = i + 3 + 1 from by omega, buildPolygonsFrom_cons]
  rw [show i + 3 = i + 2 + 1 from by omega, buildPolygonsFrom_cons]
  rw [show i + 2 = i + 1 + 1 from by omega, buildPolygonsFrom_cons]
  rw [buildPolygonsFrom_cons]

theorem buildPolygons_cons8 (a b c d e f g h8 : α) (t : List α) :
    buildPolygons (a :: b :: c :: d :: e :: f :: g :: h8 :: t)
      = match buildPolygons t with
        | some rest =>
          some ({ vertices := [⟨a, b⟩, ⟨c, d⟩] } :: rest)
        | none => none := by
  have hrec : buildPolygonsFrom (a :: b :: c :: d :: e :: f :: g :: h8 :: t) (0 + 8)
      = buildPolygonsFrom t 0 := buildPolygonsFrom_shift8 a b c d e f g h8 t 0
  conv_lhs => rw [buildPolygons, buildPolygonsFrom.eq_def]
  rw [dif_pos (by simp : (0 : Nat) < (a :: b :: c :: d :: e :: f :: g :: h8 :: t).length)]
  rw [hrec]
  rfl


theorem buildPolygons_nil : buildPolygons ([] : List α) = some [] := by
  rw [buildPolygons, buildPolygonsFrom.eq_def]
  simp

theorem buildPolygons_small (a b c d : α) (t : List α) (ht : t.length ≤ 3) :
    buildPolygons (a :: b :: c :: d :: t)
      = some [{ vertices := [⟨a, b⟩, ⟨c, d⟩] }] := by
  conv_lhs => rw [buildPolygons, buildPolygonsFrom.eq_def]
  rw [dif_pos (by simp : (0 : Nat) < (a :: b :: c :: d :: t).length)]
  have hrec : buildPolygonsFrom (a :: b :: c :: d :: t) (0 + 8) = some [] := by
    rw [buildPolygonsFrom.eq_def, dif_neg (by simp; omega)]
  rw [hrec]
  rfl

theorem exists_cons8 (v : List α) (h : 8 ≤ v.length) :
    ∃ a b c d e f g h8 t, v = a :: b :: c :: d :: e :: f :: g :: h8 :: t := by
  rcases v with _ | ⟨a, _ | ⟨b, _ | ⟨c, _ | ⟨d, _ | ⟨e, _ | ⟨f, _ | ⟨g, _ | ⟨h8, t⟩⟩⟩⟩⟩⟩⟩⟩ <;>
    simp only [List.length_cons, List.length_nil] at h
  all_goals first | omega | exact ⟨_, _, _, _, _, _, _, _, _, rfl⟩

theorem buildPolygons_count_aux (n : Nat) :
    ∀ (v : List α), v.length ≤ n →
      (v.length % 8 = 0 ∨ 4 ≤ v.length % 8) →
      ∃ l, buildPolygons v = some l ∧ l.length = (v.length + 7) / 8 := by
  induction n with
  | zero =>
    intro v hn _
    have hv : v = [] := List.eq_nil_of_length_eq_zero (by omega)
    subst hv
    exact ⟨[], buildPolygons_nil, by simp⟩
  | succ n ih =>
    intro v hn hr
    by_cases h8 : 8 ≤ v.length
    · obtain ⟨a, b, c, d, e, f, g, h9, t, rfl⟩ := exists_cons8 v h8
      simp only [List.length_cons] at hn hr h8 ⊢
      obtain ⟨l, hl, hlen⟩ := ih t (by omega) (by omega)
      refine ⟨{ vertices := [⟨a, b⟩, ⟨c, d⟩] } :: l, ?_, ?_⟩
      · rw [buildPolygons_cons8, hl]
      · simp only [List.length_cons]
        omega
    · rcases v with _ | ⟨a, _ | ⟨b, _ | ⟨c, _ | ⟨d, t⟩⟩⟩⟩
      · exact ⟨[], buildPolygons_nil, by simp⟩
      · simp only [List.length_cons, List.length_nil] at hr; omega
      · simp only [List.length_cons, List.length_nil] at hr; omega
      · simp only [List.length_cons, List.length_nil] at hr; omega
      · simp only [List.length_cons, List.length_nil] at hn hr h8 ⊢
        refine ⟨[{ vertices := [⟨a, b⟩, ⟨c, d⟩] }], ?_, ?_⟩
        · exact buildPolygons_small a b c d t (by omega)
        · simp only [List.length_cons, List.length_nil]
          omega

theorem buildPolygons_none_aux (n : Nat) :
    ∀ (v : List α), v.length ≤ n →
      (v.length % 8 = 1 ∨ v.length % 8 = 2 ∨ v.length % 8 = 3) →
      buildPolygons v = none := by
  induction n with
  | zero => intro v hn hr; omega
  | succ n ih =>
    intro v hn hr
    by_cases h8 : 8 ≤ v.length
    · obtain ⟨a, b, c, d, e, f, g, h9, t, rfl⟩ := exists_cons8 v h8
      simp only [List.length_cons] at hn hr h8 ⊢
      rw [buildPolygons_cons8, ih t (by omega) (by omega)]
    · rcases v with _ | ⟨a, _ | ⟨b, _ | ⟨c, _ | ⟨d, t⟩⟩⟩⟩
      · simp at hr
      · simp [buildPolygons, buildPolygonsFrom]
      · simp [buildPolygons, buildPolygonsFrom]
      · simp [buildPolygons, buildPolygonsFrom]
      · simp only [List.length_cons, List.length_nil] at hn hr h8; omega


theorem buildBallsFrom_cons_aux (k : Nat) :
    ∀ (x : α) (v : List α) (i : Nat), v.length - i ≤ k →
      buildBallsFrom (x :: v) (i + 1) = buildBallsFrom v i := by
  induction k with
  | zero =>
    intro x v i h
    have hv : ¬ i < v.length := by omega
    have hv1 : ¬ i + 1 < (x :: v).length := by simp; omega
    conv_lhs => rw [buildBallsFrom.eq_def]
    conv_rhs => rw [buildBallsFrom.eq_def]
    rw [dif_neg hv1, dif_neg hv]
  | succ k ih =>
    intro x v i h
    by_cases hi : i < v.length
    · have hi1 : i + 1 < (x :: v).length := by simp; omega
      conv_lhs => rw [buildBallsFrom.eq_def]
      conv_rhs => rw [buildBallsFrom.eq_def]
      rw [dif_pos hi1, dif_pos hi]
      have g0 : (x :: v).get? (i + 1) = v.get? i := List.get?_cons_succ
      have g1 : (x :: v).get? (i + 1 + 1) = v.get? (i + 1) := List.get?_cons_succ
      have g2 : (x :: v).get? (i + 1 + 2) = v.get? (i + 2) := by
        rw [show i + 1 + 2 = (i + 2) + 1 from by omega, List.get?_cons_succ]
      have grec : buildBallsFrom (x :: v) (i + 1 + 3) = buildBallsFrom v (i + 3) := by
        rw [show i + 1 + 3 = (i + 3) + 1 from by omega]
        exact ih x v (i + 3) (by omega)
      rw [g0, g1, g2, grec]
    · have hv1 : ¬ i + 1 < (x :: v).length := by simp; omega
      conv_lhs => rw [buildBallsFrom.eq_def]
      conv_rhs => rw [buildBallsFrom.eq_def]
      rw [dif_neg hv1, dif_neg hi]

theorem buildBallsFrom_cons (x : α) (v : List α) (i : Nat) :
    buildBallsFrom (x :: v) (i + 1) = buildBallsFrom v i :=
  buildBallsFrom_cons_aux (v.length) x v i (by omega)

theorem buildBallsFrom_shift3 (a b c : α) (t : List α) (i : Nat) :
    buildBallsFrom (a :: b :: c :: t) (i + 3) = buildBallsFrom t i := by
  rw [show i + 3 = i + 2 + 1 from by omega, buildBallsFrom_cons]
  rw [show i + 2 = i + 1 + 1 from by omega, buildBallsFrom_cons]
  rw [buildBallsFrom_cons]

theorem buildBalls_cons3 (a b c : α) (t : List α) :
    buildBalls (a :: b :: c :: t)
      = match buildBalls t with
        | some rest => some ({ position := ⟨a, b⟩, radius := c } :: rest)
        | none => none := by
  have hrec : buildBallsFrom (a :: b :: c :: t) (0 + 3) = buildBallsFrom t 0 :=
    buildBallsFrom_shift3 a b c t 0
  conv_lhs => rw [buildBalls, buildBallsFrom.eq_def]
  rw [dif_pos (by simp : (0 : Nat) < (a :: b :: c :: t).length)]
  rw [hrec]
  rfl

theorem buildBalls_nil : buildBalls ([] : List α) = some [] := by
  rw [buildBalls, buildBallsFrom.eq_def]
  simp

theorem buildBalls_none_aux (n : Nat) :
    ∀ (v : List α), v.length ≤ n →
      (v.length % 3 = 1 ∨ v.length % 3 = 2) →
      buildBalls v = none := by
  induction n with
  | zero => intro v hn hr; omega
  | succ n ih =>
    intro v hn hr
    by_cases h3 : 3 ≤ v.length
    · rcases v with _ | ⟨a, _ | ⟨b, _ | ⟨c, t⟩⟩⟩
      · simp at h3
      · simp at h3
      · simp at h3
      · simp only [List.length_cons] at hn hr h3 ⊢
        rw [buildBalls_cons3, ih t (by omega) (by omega)]
    · rcases v with _ | ⟨a, _ | ⟨b, t⟩⟩
      · simp at hr
      · simp [buildBalls, buildBallsFrom]
      · simp only [List.length_cons, List.length_nil] at hn hr h3
        rcases t with _ | ⟨c, t⟩
        · simp [buildBalls, buildBallsFrom]
        · simp only [List.length_cons] at hn hr h3; omega

theorem buildBalls_count_aux (n : Nat) :
    ∀ (v : List α), v.length ≤ n → v.length % 3 = 0 →
      ∃ l, buildBalls v = some l ∧ l.length = v.length / 3 := by
  induction n with
  | zero =>
    intro v hn _
    have hv : v = [] := List.eq_nil_of_length_eq_zero (by omega)
    subst hv
    exact ⟨[], buildBalls_nil, by simp⟩
  | succ n ih =>
    intro v hn hr
    rcases v with _ | ⟨a, _ | ⟨b, _ | ⟨c, t⟩⟩⟩
    · exact ⟨[], buildBalls_nil, by simp⟩
    · simp at hr
    · simp at hr
    · simp only [List.length_cons] at hn hr ⊢
      obtain ⟨l, hl, hlen⟩ := ih t (by omega) (by omega)
      refine ⟨{ position := ⟨a, b⟩, radius := c } :: l, ?_, ?_⟩
      · rw [buildBalls_cons3, hl]
      · simp only [List.length_cons]
        omega

/-! ## C1 and C2: stride parsing against the spec -/

/-- C1: evaluation at one full 8-float stride
`rectVerticesFlat = [10,11,12,13,14,15,16,17]` (with an empty 0 by 2
points matrix and no balls).  The inner loop bound `j < 4` makes the
code read only the first 4 floats of the stride, so the single produced
polygon has 2 vertices `(10,11), (12,13)`, not the 4 vertices the
specification describes. -/
theorem buildUserInput_two_vertex_polygon :
    ∃ ui, buildUserInputObject ⟨[0, 2], fun _ _ => 0⟩
          ([10, 11, 12, 13, 14, 15, 16, 17] : List Nat) []
        = Except.ok ui
      ∧ ui.polygons.length = 1
      ∧ ∃ p, ui.polygons = [p]
          ∧ p.vertices = [⟨10, 11⟩, ⟨12, 13⟩]
          ∧ p.vertices.length = 2 := by
  refine ⟨⟨[], [⟨[⟨10, 11⟩, ⟨12, 13⟩]⟩], []⟩, ?_, rfl, _, rfl, rfl, rfl⟩
  simp [buildUserInputObject, flattenPoints, flattenPointsUpTo,
    buildPolygons, buildPolygonsFrom, buildBalls, buildBallsFrom]

/-- C2 counterexample: `rectVerticesFlat` of length 12 (not a multiple
of 8) and `ballsFlat` of length 4 (not a multiple of 3).  The claim
predicts floor(12/8) = 1 polygon, floor(4/3) = 1 circle and no read
past the last complete stride; instead the rectangle loop enters the
trailing partial stride and yields 2 polygons, and the ball loop reads
indices 4 and 5, past the end of the 4-element vector, so the embedded
builder reports the out-of-bounds read. -/
theorem buildUserInput_partial_stride_counterexample :
    buildUserInputObject ⟨[0, 2], fun _ _ => 0⟩
        ([1, 2, 3, 4, 5, 6, 7, 8, 9, 10, 11, 12] : List Nat)
        ([20, 21, 22, 23] : List Nat)
      = Except.error BindingError.oobRead
      ∧ (∃ l, buildPolygons
            ([1, 2, 3, 4, 5, 6, 7, 8, 9, 10, 11, 12] : List Nat) = some l
          ∧ l.length = 2)
      ∧ (12 : Nat) / 8 = 1
      ∧ buildBalls ([20, 21, 22, 23] : List Nat) = none := by
  refine ⟨?_, ⟨[⟨[⟨1, 2⟩, ⟨3, 4⟩]⟩, ⟨[⟨9, 10⟩, ⟨11, 12⟩]⟩], ?_, rfl⟩, rfl, ?_⟩
  · simp [buildUserInputObject, buildPolygons, buildPolygonsFrom,
      buildBalls, buildBallsFrom]
  · simp [buildPolygons, buildPolygonsFrom]
  · simp [buildBalls, buildBallsFrom]

/-- C2 amended: a trailing partial stride is never silently dropped.
For `rectVerticesFlat` whose length is not a multiple of 8, the
rectangle loop enters the partial stride: if at least 4 elements remain
it produces floor(len/8) + 1 polygons, otherwise it reads past the end
of the vector; for `ballsFlat` whose length is not a multiple of 3, the
ball loop always reads past the end of the vector. -/
theorem buildUserInput_partial_stride_amended {α : Type}
    (rect balls : List α) (hr : rect.length % 8 ≠ 0)
    (hb : balls.length % 3 ≠ 0) :
    ((4 ≤ rect.length % 8
        ∧ ∃ l, buildPolygons rect = some l
            ∧ l.length = rect.length / 8 + 1)
      ∨ (rect.length % 8 < 4 ∧ buildPolygons rect = none))
    ∧ buildBalls balls = none := by
  constructor
  · by_cases h4 : 4 ≤ rect.length % 8
    · left
      obtain ⟨l, hl, hlen⟩ :=
        buildPolygons_count_aux rect.length rect le_rfl (Or.inr h4)
      exact ⟨h4, l, hl, by omega⟩
    · exact Or.inr ⟨by omega,
        buildPolygons_none_aux rect.length rect le_rfl (by omega)⟩
  · exact buildBalls_none_aux balls.length balls le_rfl (by omega)

/-- Witness for the amended C2 at rect length 12 and ball length 4. -/
theorem buildUserInput_partial_stride_amended_witness :
    ((([1, 2, 3, 4, 5, 6, 7, 8, 9, 10, 11, 12] : List Nat).length % 8 ≠ 0)
      ∧ (([20, 21, 22, 23] : List Nat).length % 3 ≠ 0))
    ∧ (((4 ≤ ([1, 2, 3, 4, 5, 6, 7, 8, 9, 10, 11, 12] : List Nat).length % 8
          ∧ ∃ l, buildPolygons
                ([1, 2, 3, 4, 5, 6, 7, 8, 9, 10, 11, 12] : List Nat) = some l
              ∧ l.length
                = ([1, 2, 3, 4, 5, 6, 7, 8, 9, 10, 11, 12] :
                    List Nat).length / 8 + 1)
        ∨ (([1, 2, 3, 4, 5, 6, 7, 8, 9, 10, 11, 12] :
              List Nat).length % 8 < 4
          ∧ buildPolygons
              ([1, 2, 3, 4, 5, 6, 7, 8, 9, 10, 11, 12] : List Nat) = none))
      ∧ buildBalls ([20, 21, 22, 23] : List Nat) = none) :=
  ⟨⟨by decide, by decide⟩,
    buildUserInput_partial_stride_amended _ _ (by decide) (by decide)⟩

/-! ## Mask-rendering lemmas -/

theorem renderSingleBody_length (render : Scene → Image) (scene : Scene)
    (body : Body) :
    (renderSingleBody render scene body).1.length = imageSizeOf scene := by
  unfold renderSingleBody
  by_cases h : (render (singleObjectScene scene body)).values.length
      = imageSizeOf scene <;> simp [h]

theorem writeBytes_append (pre rest data : List Nat) :
    writeBytes (pre ++ rest) pre.length data
      = pre ++ data ++ rest.drop data.length := by
  unfold writeBytes
  rw [List.take_left, ← List.drop_drop, List.drop_left]

theorem renderMasksLoop_spec (render : Scene → Image) (scene : Scene)
    (base : Nat) :
    ∀ (l : List Body) (idx : Nat) (pre rest : List Nat) (w : Nat),
      pre.length = base + idx * imageSizeOf scene →
      rest.length
        = (l.filter (fun b => b.shapeType ≠ ShapeType.UNDEFINED)).length
          * imageSizeOf scene →
      renderMasksLoop render scene base l idx (pre ++ rest, w)
        = (pre
            ++ (l.filter (fun b => b.shapeType ≠ ShapeType.UNDEFINED)).flatMap
                (fun b => (renderSingleBody render scene b).1),
          w + (l.filter (fun b => b.shapeType ≠ ShapeType.UNDEFINED)).countP
                (fun b => (renderSingleBody render scene b).2)) := by
  intro l
  induction l with
  | nil =>
    intro idx pre rest w hpre hrest
    have hr : rest = [] := List.eq_nil_of_length_eq_zero (by simpa using hrest)
    subst hr
    simp [renderMasksLoop]
  | cons b l ih =>
    intro idx pre rest w hpre hrest
    by_cases hb : b.shapeType = ShapeType.UNDEFINED
    · rw [renderMasksLoop, if_neg (by simp [hb])]
      rw [ih idx pre rest w hpre
        (by simpa [List.filter_cons, hb] using hrest)]
      simp [List.filter_cons, hb]
    · have hS := renderSingleBody_length render scene b
      have hfil :
          (b :: l).filter (fun b => b.shapeType ≠ ShapeType.UNDEFINED)
            = b :: l.filter (fun b => b.shapeType ≠ ShapeType.UNDEFINED) :=
        List.filter_cons_of_pos (by simp [hb])
      have hrest2 :
          (rest.drop (renderSingleBody render scene b).1.length).length
            = (l.filter (fun b => b.shapeType ≠ ShapeType.UNDEFINED)).length
              * imageSizeOf scene := by
        rw [List.length_drop, hS]
        rw [hfil] at hrest
        simp only [List.length_cons, Nat.add_mul, Nat.one_mul] at hrest
        omega
      have hpre2 : (pre ++ (renderSingleBody render scene b).1).length
          = base + (idx + 1) * imageSizeOf scene := by
        rw [List.length_append, hS, hpre]
        ring
      rw [renderMasksLoop, if_pos (by simp [hb])]
      rw [← hpre, writeBytes_append]
      rw [ih (idx + 1) (pre ++ (renderSingleBody render scene b).1)
        (rest.drop (renderSingleBody render scene b).1.length) _ hpre2 hrest2]
      rw [hfil, List.flatMap_cons, List.countP_cons, Prod.mk.injEq]
      refine ⟨by simp, ?_⟩
      rcases hw : (renderSingleBody render scene b).2 <;> simp [hw] <;> omega

theorem renderAllObjectMasksTo_spec (render : Scene → Image) (scene : Scene)
    (buf : List Nat)
    (h : buf.length = (validBodies scene).length * imageSizeOf scene) :
    renderAllObjectMasksTo render scene buf 0
      = ((validBodies scene).flatMap
            (fun b => (renderSingleBody render scene b).1),
        (validBodies scene).countP
            (fun b => (renderSingleBody render scene b).2)) := by
  have := renderMasksLoop_spec render scene 0
    (scene.bodies ++ scene.user_input_bodies) 0 [] buf 0 (by simp)
    (by simpa [validBodies] using h)
  simpa [renderAllObjectMasksTo, validBodies] using this

theorem flatMap_chunk (S : Nat) {β : Type} (f : β → List Nat) :
    ∀ (l : List β) (i : Nat) (hi : i < l.length),
      (∀ b ∈ l, (f b).length = S) →
      ((l.flatMap f).drop (i * S)).take S = f (l.get ⟨i, hi⟩) := by
  intro l
  induction l with
  | nil => intro i hi; simp at hi
  | cons b l ih =>
    intro i hi hf
    cases i with
    | zero =>
      simp only [List.flatMap_cons, Nat.zero_mul, List.drop_zero]
      rw [List.take_left' (hf b (by simp))]
      rfl
    | succ i =>
      rw [List.flatMap_cons, show (i + 1) * S = S + i * S from by ring,
        ← List.drop_drop, List.drop_left' (hf b (by simp))]
      rw [ih i (by simp only [List.length_cons] at hi; omega)
        (fun x hx => hf x (by simp [hx]))]
      rfl


/-- Member-wise congruence for `List.flatMap`. -/
theorem flatMap_congr {β γ : Type} (l : List β) (f g : β → List γ)
    (h : ∀ b ∈ l, f b = g b) : l.flatMap f = l.flatMap g := by
  induction l with
  | nil => rfl
  | cons b t ih =>
    simp only [List.flatMap_cons]
    rw [h b (by simp), ih (fun x hx => h x (by simp [hx]))]

/-- With `need_object_masks = true` the frame loop renders the masks of
every frame it is given, whatever the rasterizer returns. -/
theorem masksLoop_frames (render : Scene → Image) (O S : Nat) :
    ∀ (frames : List Scene) (idx : Nat) (acc : List Nat × List Scene),
      (masksLoop render O S true frames idx acc).2 = acc.2 ++ frames := by
  intro frames
  induction frames with
  | nil => intro idx acc; simp [masksLoop]
  | cons sc t ih =>
    intro idx acc
    obtain ⟨buf, fr⟩ := acc
    rw [masksLoop]
    simp only [if_pos trivial, if_true]
    rw [ih]
    simp

/-! ## C5: mask layout, and C7: mismatch recovery -/

/-- C5: `renderAllObjectMasksTo` visits exactly the non-`UNDEFINED`
bodies of `bodies ++ user_input_bodies` in list order and, when every
singleton render has `imageSize` bytes, writes the `i`-th such body's
singleton-scene rasterization at offset `i * imageSize` of the output
buffer. -/
theorem renderObjectMasks_layout (render : Scene → Image) (scene : Scene)
    (buf : List Nat) (i : Nat)
    (hbuf : buf.length = (validBodies scene).length * imageSizeOf scene)
    (hrender : ∀ b ∈ validBodies scene,
      (render (singleObjectScene scene b)).values.length = imageSizeOf scene)
    (hi : i < (validBodies scene).length) :
    (renderAllObjectMasksTo render scene buf 0).1
        = (validBodies scene).flatMap
            (fun b => (render (singleObjectScene scene b)).values)
      ∧ (((renderAllObjectMasksTo render scene buf 0).1.drop
            (i * imageSizeOf scene)).take (imageSizeOf scene))
          = (render (singleObjectScene scene
              ((validBodies scene).get ⟨i, hi⟩))).values := by
  have hspec := renderAllObjectMasksTo_spec render scene buf hbuf
  have h1 : (renderAllObjectMasksTo render scene buf 0).1
      = (validBodies scene).flatMap
          (fun b => (renderSingleBody render scene b).1) := by
    rw [hspec]
  have hmB : ∀ b ∈ validBodies scene,
      (renderSingleBody render scene b).1
        = (render (singleObjectScene scene b)).values := by
    intro b hbm
    unfold renderSingleBody
    rw [if_pos (hrender b hbm)]
  constructor
  · rw [h1]
    exact flatMap_congr _ _ _ hmB
  · rw [h1, flatMap_chunk (imageSizeOf scene) _ (validBodies scene) i hi
      (fun b _ => renderSingleBody_length render scene b)]
    exact hmB _ (List.get_mem _ _ _)

/-- Witness bodies and scene for the mask theorems: one `BALL` body and
one `UNDEFINED` slot among the scene bodies, one `BAR` user-input body,
a 2 by 1 scene (imageSize 2). -/
def bodyA : Body := ⟨ShapeType.BALL, 1⟩

/-- Witness: the inactive body slot. -/
def bodyU : Body := ⟨ShapeType.UNDEFINED, 2⟩

/-- Witness: the user-input body. -/
def bodyB : Body := ⟨ShapeType.BAR, 3⟩

/-- Witness scene: 2 by 1, bodies `[bodyA, bodyU]`, user-input bodies
`[bodyB]`. -/
def scene0 : Scene :=
  ⟨2, 1, [bodyA, bodyU], [bodyB], UserInputStatus.NO_OCCLUSIONS⟩

/-- Witness rasterizer returning a well-sized 2-byte image for every
scene. -/
def render0 : Scene → Image :=
  fun sc => ⟨[(sc.bodies.headD bodyU).bodyData, 9]⟩

/-- Witness for the C5 layout theorem at `scene0`, object index 1. -/
theorem renderObjectMasks_layout_witness :
    (([9, 9, 9, 9] : List Nat).length
        = (validBodies scene0).length * imageSizeOf scene0)
    ∧ (∀ b ∈ validBodies scene0,
        (render0 (singleObjectScene scene0 b)).values.length
          = imageSizeOf scene0)
    ∧ 1 < (validBodies scene0).length
    ∧ ((renderAllObjectMasksTo render0 scene0 [9, 9, 9, 9] 0).1
          = (validBodies scene0).flatMap
              (fun b => (render0 (singleObjectScene scene0 b)).values)
        ∧ (((renderAllObjectMasksTo render0 scene0 [9, 9, 9, 9] 0).1.drop
              (1 * imageSizeOf scene0)).take (imageSizeOf scene0))
            = (render0 (singleObjectScene scene0
                ((validBodies scene0).get ⟨1, by decide⟩))).values) :=
  ⟨by decide, by decide, by decide,
    renderObjectMasks_layout render0 scene0 [9, 9, 9, 9] 1
      (by decide) (by decide) (by decide)⟩

/-- C7: if the rasterizer returns a wrongly-sized image for the `i`-th
valid body, exactly that body's `imageSize`-byte region is zero-filled,
at least one warning is emitted, and the remaining bodies (witnessed by
any index `j` whose render is well-sized) and the remaining frames of
the batch are still processed. -/
theorem renderObjectMasks_mismatch_recovery (render : Scene → Image)
    (scene : Scene) (buf : List Nat) (i j : Nat) (frames : List Scene)
    (fbuf : List Nat) (fs : List Scene) (fidx O S : Nat)
    (hbuf : buf.length = (validBodies scene).length * imageSizeOf scene)
    (hi : i < (validBodies scene).length)
    (hj : j < (validBodies scene).length)
    (hmis : (render (singleObjectScene scene
        ((validBodies scene).get ⟨i, hi⟩))).values.length
        ≠ imageSizeOf scene)
    (hok : (render (singleObjectScene scene
        ((validBodies scene).get ⟨j, hj⟩))).values.length
        = imageSizeOf scene) :
    (((renderAllObjectMasksTo render scene buf 0).1.drop
          (i * imageSizeOf scene)).take (imageSizeOf scene)
        = List.replicate (imageSizeOf scene) 0)
      ∧ (((renderAllObjectMasksTo render scene buf 0).1.drop
            (j * imageSizeOf scene)).take (imageSizeOf scene)
          = (render (singleObjectScene scene
              ((validBodies scene).get ⟨j, hj⟩))).values)
      ∧ 1 ≤ (renderAllObjectMasksTo render scene buf 0).2
      ∧ (masksLoop render O S true frames fidx (fbuf, fs)).2
          = fs ++ frames := by
  have hspec := renderAllObjectMasksTo_spec render scene buf hbuf
  have h1 : (renderAllObjectMasksTo render scene buf 0).1
      = (validBodies scene).flatMap
          (fun b => (renderSingleBody render scene b).1) := by
    rw [hspec]
  have hseg : ∀ (k : Nat) (hk : k < (validBodies scene).length),
      ((renderAllObjectMasksTo render scene buf 0).1.drop
          (k * imageSizeOf scene)).take (imageSizeOf scene)
        = (renderSingleBody render scene
            ((validBodies scene).get ⟨k, hk⟩)).1 := by
    intro k hk
    rw [h1, flatMap_chunk (imageSizeOf scene) _ (validBodies scene) k hk
      (fun b _ => renderSingleBody_length render scene b)]
  refine ⟨?_, ?_, ?_, masksLoop_frames render O S frames fidx (fbuf, fs)⟩
  · rw [hseg i hi]
    unfold renderSingleBody
    rw [if_neg hmis]
  · rw [hseg j hj]
    unfold renderSingleBody
    rw [if_pos hok]
  · have h2 : (renderAllObjectMasksTo render scene buf 0).2
        = (validBodies scene).countP
            (fun b => (renderSingleBody render scene b).2) := by
      rw [hspec]
    rw [h2]
    have hpos : 0 < (validBodies scene).countP
        (fun b => (renderSingleBody render scene b).2) := by
      refine List.countP_pos_iff.mpr
        ⟨(validBodies scene).get ⟨i, hi⟩, List.get_mem _ _ _, ?_⟩
      show (renderSingleBody render scene
        ((validBodies scene).get ⟨i, hi⟩)).2 = true
      unfold renderSingleBody
      rw [if_neg hmis]
    omega

/-- Witness rasterizer for the mismatch theorem: wrongly sized (1 byte)
on the singleton scene of `bodyA`, well sized (2 bytes) elsewhere. -/
def render1 : Scene → Image :=
  fun sc => if sc.bodies = [bodyA] then ⟨[7]⟩ else ⟨[5, 6]⟩

/-- Witness for the C7 mismatch theorem at `scene0`: the render of the
first valid body is wrongly sized, the second is fine. -/
theorem renderObjectMasks_mismatch_recovery_witness :
    (([4, 4, 4, 4] : List Nat).length
        = (validBodies scene0).length * imageSizeOf scene0)
    ∧ ((render1 (singleObjectScene scene0
          ((validBodies scene0).get ⟨0, by decide⟩))).values.length
        ≠ imageSizeOf scene0)
    ∧ ((render1 (singleObjectScene scene0
          ((validBodies scene0).get ⟨1, by decide⟩))).values.length
        = imageSizeOf scene0)
    ∧ ((((renderAllObjectMasksTo render1 scene0 [4, 4, 4, 4] 0).1.drop
            (0 * imageSizeOf scene0)).take (imageSizeOf scene0)
          = List.replicate (imageSizeOf scene0) 0)
      ∧ ((((renderAllObjectMasksTo render1 scene0 [4, 4, 4, 4] 0).1.drop
              (1 * imageSizeOf scene0)).take (imageSizeOf scene0))
            = (render1 (singleObjectScene scene0
                ((validBodies scene0).get ⟨1, by decide⟩))).values)
      ∧ 1 ≤ (renderAllObjectMasksTo render1 scene0 [4, 4, 4, 4] 0).2
      ∧ (masksLoop render1 1 2 true [scene0] 0 ([], [])).2
          = [] ++ [scene0]) :=
  ⟨by decide, by decide, by decide,
    renderObjectMasks_mismatch_recovery render1 scene0 [4, 4, 4, 4] 0 1
      [scene0] [] [] 0 1 2 (by decide) (by decide) (by decide) (by decide)
      (by decide)⟩

/-! ## C8: shape validation fails fast -/

/-- C8: for every `points` that is not rank-2 with second dimension 2,
`buildUserInputObject`, `check_for_occlusions` and the `magic_ponies`
entry point all fail with the same validation error, for every decode
outcome (including a failing decode) and every simulator — the
validation runs before decoding and before simulation. -/
theorem validation_fails_fast {α : Type} (points : PyIntArray)
    (rect balls : List α) (decodeTask : Except BindingError Task)
    (simulateTaskFn : Task → Int → Int → TaskSimulation)
    (merge : MergeFn α) (render : Scene → Image)
    (kObjectFeatureSize : Nat) (keep : Bool) (steps stride : Int)
    (need_images need_featurized_objects need_object_masks : Bool)
    (h : ¬ (points.shape.length = 2 ∧ points.shape.getD 1 0 = 2)) :
    ∃ e, (e = BindingError.dimError ∨ e = BindingError.widthError)
      ∧ buildUserInputObject points rect balls = Except.error e
      ∧ check_for_occlusions decodeTask merge points rect balls keep
          = Except.error e
      ∧ magic_ponies_binding decodeTask simulateTaskFn merge render
          kObjectFeatureSize points rect balls keep steps stride
          need_images need_featurized_objects need_object_masks
          = Except.error e := by
  by_cases h2 : points.shape.length = 2
  · have hw : points.shape.getD 1 0 ≠ 2 := by tauto
    have hbuild : buildUserInputObject points rect balls
        = Except.error BindingError.widthError := by
      unfold buildUserInputObject
      rw [if_neg (by omega : ¬ points.shape.length ≠ 2), if_pos hw]
    refine ⟨BindingError.widthError, Or.inr rfl, hbuild, ?_, ?_⟩
    · unfold check_for_occlusions
      rw [hbuild]
      rfl
    · unfold magic_ponies_binding
      rw [hbuild]
      rfl
  · have hbuild : buildUserInputObject points rect balls
        = Except.error BindingError.dimError := by
      unfold buildUserInputObject
      rw [if_pos h2]
    refine ⟨BindingError.dimError, Or.inl rfl, hbuild, ?_, ?_⟩
    · unfold check_for_occlusions
      rw [hbuild]
      rfl
    · unfold magic_ponies_binding
      rw [hbuild]
      rfl

/-- Witness points array for C8: rank 1 (shape `[3]`). -/
def pointsBad : PyIntArray := ⟨[3], fun _ _ => 0⟩

/-- Witness for C8 at a rank-1 points array, with a failing decode: the
validation error wins. -/
theorem validation_fails_fast_witness :
    (¬ (pointsBad.shape.length = 2 ∧ pointsBad.shape.getD 1 0 = 2))
    ∧ ∃ e, (e = BindingError.dimError ∨ e = BindingError.widthError)
      ∧ buildUserInputObject pointsBad ([] : List Nat) [] = Except.error e
      ∧ check_for_occlusions (Except.error BindingError.decodeError)
          (fun _ _ _ _ _ _ => (true, [])) pointsBad ([] : List Nat) []
          true = Except.error e
      ∧ magic_ponies_binding (Except.error BindingError.decodeError)
          (fun _ _ _ => ⟨false, []⟩) (fun _ _ _ _ _ _ => (true, []))
          render0 7 pointsBad ([] : List Nat) [] true 3 1 true true true
          = Except.error e :=
  ⟨by decide,
    validation_fails_fast pointsBad ([] : List Nat) []
      (Except.error BindingError.decodeError) (fun _ _ _ => ⟨false, []⟩)
      (fun _ _ _ _ _ _ => (true, [])) render0 7 true 3 1 true true true
      (by decide)⟩

/-! ## C9: point flattening -/

/-- Length of the point-flattening loop output: 2 entries per row. -/
theorem flattenPointsUpTo_length (points : PyIntArray) (m : Nat) :
    (flattenPointsUpTo points m).length = 2 * m := by
  induction m with
  | zero => rfl
  | succ m ih => simp [flattenPointsUpTo, ih]; omega

/-- Entries of the point-flattening loop output: row `i` contributes
`points(i,0)` at index `2i` and `points(i,1)` at index `2i+1`. -/
theorem flattenPointsUpTo_get (points : PyIntArray) :
    ∀ (m i : Nat), i < m →
      (flattenPointsUpTo points m).get? (2 * i) = some (points.at2 i 0)
      ∧ (flattenPointsUpTo points m).get? (2 * i + 1)
          = some (points.at2 i 1) := by
  intro m
  induction m with
  | zero => intro i hi; omega
  | succ m ih =>
    intro i hi
    have hl := flattenPointsUpTo_length points m
    by_cases him : i < m
    · obtain ⟨h1, h2⟩ := ih i him
      unfold flattenPointsUpTo
      rw [List.get?_append (by omega), List.get?_append (by omega)]
      exact ⟨h1, h2⟩
    · have him2 : i = m := by omega
      subst him2
      unfold flattenPointsUpTo
      constructor
      · rw [List.get?_append_right (by omega)]
        rw [hl, show 2 * i - 2 * i = 0 from by omega]
        rfl
      · rw [List.get?_append_right (by omega)]
        rw [hl, show 2 * i + 1 - 2 * i = 1 from by omega]
        rfl

/-- C9: for a valid `n` by 2 points matrix, any successful build has a
flattened point list of length `2n`, row-major, `x` before `y`. -/
theorem flattened_points_spec {α : Type} (points : PyIntArray)
    (n i : Nat) (rect balls : List α) (ui : UserInput α)
    (hshape : points.shape = [n, 2])
    (hok : buildUserInputObject points rect balls = Except.ok ui)
    (hi : i < n) :
    ui.flattened_point_list.length = 2 * n
    ∧ ui.flattened_point_list.get? (2 * i) = some (points.at2 i 0)
    ∧ ui.flattened_point_list.get? (2 * i + 1) = some (points.at2 i 1) := by
  have hfl : ui.flattened_point_list = flattenPointsUpTo points n := by
    unfold buildUserInputObject at hok
    rw [hshape] at hok
    simp only [List.length_cons, List.length_nil] at hok
    rw [if_neg (by omega)] at hok
    rw [if_neg (by simp)] at hok
    rcases hp : buildPolygons rect with _ | polys <;> rw [hp] at hok <;>
      rcases hb : buildBalls balls with _ | circs <;> rw [hb] at hok <;>
        simp at hok
    rw [← hok]
    simp [flattenPoints, hshape]
  rw [hfl]
  exact ⟨flattenPointsUpTo_length points n,
    (flattenPointsUpTo_get points n i hi).1,
    (flattenPointsUpTo_get points n i hi).2⟩

/-- Witness points matrix for C9: 2 by 2, rows (5,6) and (7,8). -/
def points1 : PyIntArray :=
  ⟨[2, 2], fun i j =>
    if i = 0 then (if j = 0 then 5 else 6) else (if j = 0 then 7 else 8)⟩

/-- Witness user input for C9: the build result at `points1`. -/
def ui1 : UserInput Nat := ⟨[5, 6, 7, 8], [], []⟩

/-- Witness for C9 at `points1`, row index 1. -/
theorem flattened_points_spec_witness :
    (points1.shape = [2, 2])
    ∧ (buildUserInputObject points1 ([] : List Nat) [] = Except.ok ui1)
    ∧ 1 < 2
    ∧ (ui1.flattened_point_list.length = 2 * 2
      ∧ ui1.flattened_point_list.get? (2 * 1) = some (points1.at2 1 0)
      ∧ ui1.flattened_point_list.get? (2 * 1 + 1)
          = some (points1.at2 1 1)) := by
  have hok : buildUserInputObject points1 ([] : List Nat) []
      = Except.ok ui1 := by
    simp [buildUserInputObject, buildPolygons, buildPolygonsFrom, buildBalls,
      buildBallsFrom, flattenPoints, flattenPointsUpTo, points1, ui1]
  exact ⟨rfl, hok, by decide,
    flattened_points_spec points1 2 1 [] [] ui1 rfl hok (by decide)⟩

end Phyre
